import Mathlib

/-!
Verification of the PLC daily counter-reset service
(`src/services/plc-reset-service.js`, `scripts/reset-service.js`).

The JavaScript core is shallowly embedded as pure Lean functions:
* device I/O (connect / read / write / verify-read) is abstracted as an
  environment describing each attempt's outcomes, exactly the information the
  code branches on;
* timestamps are natural numbers, clock readings are a `Time` record with the
  calendar day, the hour and the minute in the configured timezone
  (`moment().tz(...)`);
* JavaScript exceptions are `Except` values: a `throw` inside a `try` produces
  an `.error` that the embedded `catch` handler consumes, and the single
  `throw` outside any `try` (unknown machine code in `resetCounter`) surfaces
  as an `.error` of the service-level function.
-/

/-- Global schedule/retry configuration (`globalConfig` in
`config/machines.config.js`). -/
structure Config where
  resetHour : Nat
  resetMinute : Nat
  maxRetries : Nat
  reconnectDelay : Nat
  deriving Repr, DecidableEq

/-- The configuration shipped in `config/machines.config.js`:
reset at 16:24 Asia/Jakarta, `maxRetries = 5`, `reconnectDelay = 5000`. -/
def defaultConfig : Config :=
  { resetHour := 16, resetMinute := 24, maxRetries := 5, reconnectDelay := 5000 }

/-- A timezone-local clock reading: absolute calendar day plus hour and
minute of day.  `moment().tz(timezone)` readings are compared with
`isSame(_, 'day')`, i.e. on the `day` field. -/
structure Time where
  day : Nat
  hour : Nat
  minute : Nat
  deriving Repr, DecidableEq

/-- Per-machine mutable state of the reset service (one entry of
`this.machines`), together with the one piece of the machine's static
configuration the reset path uses (`config.registers.counterAddress`). -/
structure Machine where
  counterAddress : Nat
  isConnected : Bool
  lastResetAttempt : Option Nat
  resetRetryCount : Nat
  resetStatus : Bool
  deriving Repr, DecidableEq

/-- Outcomes the environment supplies for one reset attempt:
whether a reconnect (if needed) succeeds, what `readData()` returns
(`none` models a throw, a `null` result or a missing `.data`), whether
`writeRegister` succeeds, and what the verification `readData()` returns. -/
structure AttemptEnv where
  connectOk : Bool
  readResult : Option (List Nat)
  writeOk : Bool
  verifyResult : Option (List Nat)
  deriving Repr, DecidableEq

/-- The four failure classes a single attempt can throw inside its `try`. -/
inductive AttemptError
  | connectFail
  | invalidData
  | writeFail
  | verifyFail
  deriving Repr, DecidableEq

/-- Result of the body of `resetCounter`'s `try` block for one attempt:
the updated machine state, the thrown-or-ok outcome, and the register write
that was issued (address, value), if the attempt reached the write step. -/
structure AttemptOutcome where
  machine : Machine
  result : Except AttemptError Unit
  written : Option (Nat × Nat)
  deriving Repr

/-- One attempt: the `try` body of `PLCResetService.resetCounter`
(lines 127-160).  Reconnect if disconnected; read the block and require it
present with at least 3 registers; write 0 to the counter address; re-read
and require index 2 to read 0; on success stamp `lastResetAttempt`,
zero `resetRetryCount` and set `resetStatus`. -/
def attemptOnce (env : AttemptEnv) (m : Machine) (now : Nat) : AttemptOutcome :=
  if !m.isConnected && !env.connectOk then
    ⟨m, .error .connectFail, none⟩
  else
    let m1 := { m with isConnected := true }
    match env.readResult with
    | none => ⟨m1, .error .invalidData, none⟩
    | some d =>
      if d.length < 3 then ⟨m1, .error .invalidData, none⟩
      else
        let wr := some (m.counterAddress, 0)
        if !env.writeOk then ⟨m1, .error .writeFail, wr⟩
        else
          match env.verifyResult with
          | none => ⟨m1, .error .verifyFail, wr⟩
          | some vd =>
            if vd.get? 2 = some 0 then
              ⟨{ m1 with lastResetAttempt := some now, resetRetryCount := 0,
                         resetStatus := true }, .ok (), wr⟩
            else ⟨m1, .error .verifyFail, wr⟩

/-- Final outcome of a (possibly retried) `resetCounter` call: the machine
state once the retry chain resolves, the boolean it resolves with, the number
of attempts performed, and the list of delays inserted between consecutive
attempts. -/
structure ResetResult where
  machine : Machine
  ok : Bool
  attempts : Nat
  delays : List Nat
  deriving Repr, DecidableEq

/-- The retry chain of `PLCResetService.resetCounter` (lines 125-185),
starting at attempt index `k`: run one attempt with environment `env k` at
time `times k`; on a throw the `catch` block increments `resetRetryCount`
and either recurses after a `reconnectDelay` pause (while the count is below
`maxRetries`) or gives up, zeroing the count and clearing `resetStatus`. -/
def resetCounterFrom (cfg : Config) (env : Nat → AttemptEnv) (times : Nat → Nat)
    (m : Machine) (k : Nat) : ResetResult :=
  let out := attemptOnce (env k) m (times k)
  match out.result with
  | .ok _ => ⟨out.machine, true, 1, []⟩
  | .error _ =>
    let m1 := { out.machine with resetRetryCount := m.resetRetryCount + 1 }
    if h : m.resetRetryCount + 1 < cfg.maxRetries then
      let r := resetCounterFrom cfg env times m1 (k + 1)
      ⟨r.machine, r.ok, r.attempts + 1, cfg.reconnectDelay :: r.delays⟩
    else
      ⟨{ m1 with resetRetryCount := 0, resetStatus := false }, false, 1, []⟩
termination_by cfg.maxRetries - m.resetRetryCount
decreasing_by simp; omega

/-- `resetCounter` for a machine already looked up in the registry:
the retry chain started at attempt 0. -/
def resetCounter (cfg : Config) (env : Nat → AttemptEnv) (times : Nat → Nat)
    (m : Machine) : ResetResult :=
  resetCounterFrom cfg env times m 0

/-- Service-level `resetCounter(machineCode)` (lines 119-123 plus the retry
chain): looking up an unknown machine code throws (`Except.error`) before any
attempt; a known code runs the retry chain, which always resolves. -/
def serviceResetCounter (cfg : Config) (machines : List (String × Machine))
    (code : String) (env : Nat → AttemptEnv) (times : Nat → Nat) :
    Except String ResetResult :=
  match machines.find? (fun p => p.1 == code) with
  | none => .error ("Machine " ++ code ++ " not found")
  | some p => .ok (resetCounter cfg env times p.2)

/-- Fleet-wide state of `PLCResetService`: the registry of machines keyed by
machine code, `lastResetDate` (the full clock reading stored by
`this.lastResetDate = now`), and the `resetInProgress` mutex flag. -/
structure ServiceState where
  machines : List (String × Machine)
  lastResetDate : Option Time
  resetInProgress : Bool
  deriving Repr, DecidableEq

/-- `PLCResetService.isWithinResetWindow` (lines 187-196): current hour equals
`resetHour` and the minute lies in `[resetMinute, resetMinute + 15)`. -/
def isWithinResetWindow (cfg : Config) (now : Time) : Bool :=
  now.hour == cfg.resetHour &&
    cfg.resetMinute ≤ now.minute && now.minute < cfg.resetMinute + 15

/-- `PLCResetService.shouldPerformReset` (lines 198-215): refuse while a cycle
is in progress, outside the window, or when `lastResetDate` is the same
calendar day as `now`. -/
def shouldPerformReset (cfg : Config) (st : ServiceState) (now : Time) : Bool :=
  if st.resetInProgress then false
  else if !isWithinResetWindow cfg now then false
  else match st.lastResetDate with
    | some d => if d.day == now.day then false else true
    | none => true

/-- The synchronous prefix of `checkAndResetIfNeeded` (lines 218-223): the
guard check and, when it passes, the setting of `resetInProgress := true`.
In the source no `await` separates the check from the set, so the prefix is
a single atomic step of the event loop; the returned flag records whether a
cycle was started. -/
def guardAndSet (cfg : Config) (st : ServiceState) (now : Time) :
    ServiceState × Bool :=
  if shouldPerformReset cfg st now then
    ({ st with resetInProgress := true }, true)
  else (st, false)

/-- The remainder of `checkAndResetIfNeeded` after the guard was set
(lines 224-244): run the fleet cycle — abstracted as an `Except` so that an
internal fault (`.error`, caught by the `catch` block) is covered — update
`lastResetDate` only when every machine succeeded, and in all cases clear
`resetInProgress` in the `finally` block. -/
def finishCycle (cycle : Except Unit (List (String × Machine) × Bool))
    (st : ServiceState) (now : Time) : ServiceState :=
  let st2 :=
    match cycle with
    | .ok (ms, allOk) =>
      let st' := { st with machines := ms }
      if allOk then { st' with lastResetDate := some now } else st'
    | .error _ => st
  { st2 with resetInProgress := false }

/-- `checkAndResetIfNeeded` with the fleet cycle body abstracted as a
state-dependent `Except` computation. -/
def checkAndResetWith (cfg : Config)
    (cycle : ServiceState → Except Unit (List (String × Machine) × Bool))
    (st : ServiceState) (now : Time) : ServiceState :=
  let p := guardAndSet cfg st now
  if p.2 then finishCycle (cycle p.1) p.1 now else p.1

/-- The fleet cycle body (lines 227-233): `Promise.all` over
`resetCounter(machineCode)` for every registry entry, and the
`every(result === true)` aggregate. -/
def fleetReset (cfg : Config) (env : String → Nat → AttemptEnv)
    (times : String → Nat → Nat) (ms : List (String × Machine)) :
    List (String × Machine) × Bool :=
  let rs := ms.map (fun p => (p.1, resetCounter cfg (env p.1) (times p.1) p.2))
  (rs.map (fun p => (p.1, p.2.machine)), rs.all (fun p => p.2.ok))

/-- The concrete cycle used by the service: the fleet reset never faults. -/
def runCycle (cfg : Config) (env : String → Nat → AttemptEnv)
    (times : String → Nat → Nat) (st : ServiceState) :
    Except Unit (List (String × Machine) × Bool) :=
  .ok (fleetReset cfg env times st.machines)

/-- `PLCResetService.checkAndResetIfNeeded` (lines 217-245). -/
def checkAndResetIfNeeded (cfg : Config) (env : String → Nat → AttemptEnv)
    (times : String → Nat → Nat) (st : ServiceState) (now : Time) :
    ServiceState :=
  checkAndResetWith cfg (runCycle cfg env times) st now

/-- Pre-check start minute (line 265):
`resetMinute === 0 ? 55 : resetMinute - 5`. -/
def preCheckMinute (cfg : Config) : Nat :=
  if cfg.resetMinute == 0 then 55 else cfg.resetMinute - 5

/-- Pre-check hour (line 266):
`resetMinute === 0 ? (resetHour === 0 ? 23 : resetHour - 1) : resetHour`. -/
def preCheckHour (cfg : Config) : Nat :=
  if cfg.resetMinute == 0 then
    (if cfg.resetHour == 0 then 23 else cfg.resetHour - 1)
  else cfg.resetHour

/-- Membership in the pre-check cron schedule (line 268):
`*/1 ${preCheckMinute}-59,0-${resetMinute + 19} ${preCheckHour},${resetHour} * * *`
fires at each minute `m` of each hour `h` with `h` in the hour list and `m`
in `[preCheckMinute, 59] ∪ [0, resetMinute + 19]`. -/
def preCheckFires (cfg : Config) (h m : Nat) : Bool :=
  (h == preCheckHour cfg || h == cfg.resetHour) &&
    ((preCheckMinute cfg ≤ m && m ≤ 59) || m ≤ cfg.resetMinute + 19)

/-- Modelled from the spec (section 4.1): the fire set the spec claims for the
pre-check timer — from 5 minutes before the primary window's start through the
end of the primary window `[resetHour:resetMinute, resetHour:resetMinute+15)`,
and no later.  Stated on minutes-of-day to compare with `preCheckFires`. -/
def claimedPreCheckFires (cfg : Config) (h m : Nat) : Bool :=
  let start := cfg.resetHour * 60 + cfg.resetMinute
  let t := h * 60 + m
  start - 5 ≤ t && t < start + 15

/-- Per-machine body of `PLCResetService.connect` (lines 102-112): skip an
already-connected machine, otherwise try to connect; the `catch` swallows a
connection failure (`.error`), leaving the machine disconnected. -/
def connectMachine (outcome : Except Unit Unit) (m : Machine) : Machine :=
  if m.isConnected then m
  else
    match outcome with
    | .ok _ => { m with isConnected := true }
    | .error _ => m

/-- `PLCResetService.connect` (lines 98-117): every machine's connection is
attempted (each with its own try/catch), and the `Promise.all` over the caught
promises always resolves. -/
def connectAll (outcomes : String → Except Unit Unit)
    (ms : List (String × Machine)) : List (String × Machine) :=
  ms.map (fun p => (p.1, connectMachine (outcomes p.1) p.2))

/-- `ResetServiceManager.start` (scripts/reset-service.js lines 10-25) up to
scheduler start: `await connect()` (which always resolves), then
`startScheduler()`.  The boolean records that the scheduler was started. -/
def managerStart (outcomes : String → Except Unit Unit) (st : ServiceState) :
    ServiceState × Bool :=
  ({ st with machines := connectAll outcomes st.machines }, true)

/-! Concrete fixtures used to instantiate theorems with hypotheses. -/

/-- A machine as initialized by `initializeMachines` for machine code 45051,
after a successful initial connect. -/
def machine0 : Machine :=
  { counterAddress := 47, isConnected := true, lastResetAttempt := none,
    resetRetryCount := 0, resetStatus := false }

/-- An environment whose every read fails (models a device whose
`readData()` always throws). -/
def envAllFail : Nat → AttemptEnv := fun _ =>
  { connectOk := true, readResult := none, writeOk := true, verifyResult := none }

/-- An environment where every step of every attempt succeeds: the read
returns a 3-register block, the write is accepted, and the verification
re-read shows 0 at offset 2. -/
def envAllOk : Nat → AttemptEnv := fun _ =>
  { connectOk := true, readResult := some [1, 2, 37], writeOk := true,
    verifyResult := some [1, 2, 0] }

/-- Fleet environment: every device's reads fail. -/
def fleetEnvFail : String → Nat → AttemptEnv := fun _ => envAllFail

/-- Fleet environment: every device's attempts succeed. -/
def fleetEnvOk : String → Nat → AttemptEnv := fun _ => envAllOk

/-- Attempt timestamps: attempt `j` happens at time `100 + j`. -/
def timesLin : Nat → Nat := fun j => 100 + j

/-- Fleet attempt timestamps. -/
def fleetTimes : String → Nat → Nat := fun _ => timesLin

/-- A service state with one registered machine, no reset performed yet and
no cycle in progress. -/
def st0 : ServiceState :=
  { machines := [("45051", machine0)], lastResetDate := none,
    resetInProgress := false }

/-- A clock reading inside the default primary window (16:25). -/
def t0 : Time := { day := 20300, hour := 16, minute := 25 }

/-- A later clock reading on the same day, still inside the window (16:30). -/
def t1 : Time := { day := 20300, hour := 16, minute := 30 }

/-! Claim theorems. -/

lemma attemptOnce_machine (env : AttemptEnv) (m : Machine) (t : Nat) :
    ((attemptOnce env m t).result = .ok () ∧
     (attemptOnce env m t).machine.lastResetAttempt = some t ∧
     (attemptOnce env m t).machine.resetRetryCount = 0 ∧
     (attemptOnce env m t).machine.resetStatus = true) ∨
    ((∃ e, (attemptOnce env m t).result = .error e) ∧
     (attemptOnce env m t).machine.lastResetAttempt = m.lastResetAttempt ∧
     (attemptOnce env m t).machine.resetRetryCount = m.resetRetryCount ∧
     (attemptOnce env m t).machine.resetStatus = m.resetStatus) := by
  unfold attemptOnce
  split
  · right; simp
  · split
    · right; simp
    · split
      · right; simp
      · split
        · right; simp
        · split
          · right; simp
          · split
            · left; simp
            · right; simp

lemma envAllFail_attempt_fails (j : Nat) (m2 : Machine) (t : Nat) :
    ∃ e, (attemptOnce (envAllFail j) m2 t).result = .error e := by
  refine ⟨.invalidData, ?_⟩
  cases hm : m2.isConnected <;> simp [attemptOnce, envAllFail, hm]

lemma resetCounterFrom_allFail (cfg : Config) (env : Nat → AttemptEnv)
    (times : Nat → Nat)
    (hfail : ∀ j m2 t, ∃ e, (attemptOnce (env j) m2 t).result = .error e) :
    ∀ n m k, 1 ≤ n → m.resetRetryCount + n = cfg.maxRetries →
      (resetCounterFrom cfg env times m k).ok = false ∧
      (resetCounterFrom cfg env times m k).attempts = n ∧
      (resetCounterFrom cfg env times m k).delays =
        List.replicate (n - 1) cfg.reconnectDelay ∧
      (resetCounterFrom cfg env times m k).machine.resetRetryCount = 0 ∧
      (resetCounterFrom cfg env times m k).machine.resetStatus = false ∧
      (resetCounterFrom cfg env times m k).machine.lastResetAttempt =
        m.lastResetAttempt := by
  intro n
  induction n with
  | zero => omega
  | succ n ih =>
    intro m k h1 h2
    obtain ⟨e, he⟩ := hfail k m (times k)
    rcases attemptOnce_machine (env k) m (times k) with
      ⟨hok, _⟩ | ⟨_, hla, hrc, _⟩
    · rw [hok] at he; exact absurd he (by simp)
    · rw [resetCounterFrom, he]
      by_cases hlt : m.resetRetryCount + 1 < cfg.maxRetries
      · have hn : 1 ≤ n := by omega
        have hih := ih { (attemptOnce (env k) m (times k)).machine with
            resetRetryCount := m.resetRetryCount + 1 } (k + 1) hn (by simp; omega)
        simp only [hlt, dif_pos] at *
        refine ⟨hih.1, by simp [hih.2.1], ?_, hih.2.2.2.1, hih.2.2.2.2.1, ?_⟩
        · have : n + 1 - 1 = (n - 1) + 1 := by omega
          rw [hih.2.2.1, this, List.replicate_succ]
        · rw [hih.2.2.2.2.2]
          simpa using hla
      · have hn0 : n = 0 := by omega
        subst hn0
        simp only [hlt, dif_neg, not_false_iff]
        simpa using hla

lemma resetCounterFrom_fail_lastAttempt (cfg : Config) (env : Nat → AttemptEnv)
    (times : Nat → Nat) :
    ∀ n m k, cfg.maxRetries - m.resetRetryCount = n →
      (resetCounterFrom cfg env times m k).ok = false →
      (resetCounterFrom cfg env times m k).machine.lastResetAttempt =
        m.lastResetAttempt := by
  intro n
  induction n with
  | zero =>
    intro m k hgap hok
    rw [resetCounterFrom] at hok ⊢
    cases he : (attemptOnce (env k) m (times k)).result with
    | ok u => simp [he] at hok
    | error e =>
      rcases attemptOnce_machine (env k) m (times k) with
        ⟨hok2, _⟩ | ⟨_, hla, hrc, _⟩
      · rw [he] at hok2; exact absurd hok2 (by simp)
      · have hlt : ¬ (m.resetRetryCount + 1 < cfg.maxRetries) := by omega
        simp only [he, hlt, dif_neg, not_false_iff]
        simpa using hla
  | succ n ih =>
    intro m k hgap hok
    rw [resetCounterFrom] at hok ⊢
    cases he : (attemptOnce (env k) m (times k)).result with
    | ok u => simp [he] at hok
    | error e =>
      rcases attemptOnce_machine (env k) m (times k) with
        ⟨hok2, _⟩ | ⟨_, hla, hrc, _⟩
      · rw [he] at hok2; exact absurd hok2 (by simp)
      · by_cases hlt : m.resetRetryCount + 1 < cfg.maxRetries
        · simp only [he, hlt, dif_pos] at hok ⊢
          have := ih { (attemptOnce (env k) m (times k)).machine with
              resetRetryCount := m.resetRetryCount + 1 } (k + 1) (by simp; omega)
              (by simpa using hok)
          simp only [this]
          simpa using hla
        · simp only [he, hlt, dif_neg, not_false_iff]
          simpa using hla

/-- C1: every call to `checkAndResetIfNeeded` evaluates its guards
synchronously and in order, each causing an immediate return that leaves the
state untouched and starts no cycle: first `resetInProgress`, then the
primary-window test, then the same-calendar-day test against `lastResetDate`;
only when all three pass does the call set `resetInProgress := true` and
execute one fleet-wide cycle. -/
theorem C1_guard_order (cfg : Config) (env : String → Nat → AttemptEnv)
    (times : String → Nat → Nat) (st : ServiceState) (now : Time) :
    (st.resetInProgress = true → checkAndResetIfNeeded cfg env times st now = st) ∧
    (isWithinResetWindow cfg now = false →
      checkAndResetIfNeeded cfg env times st now = st) ∧
    (∀ d, st.lastResetDate = some d → d.day = now.day →
      checkAndResetIfNeeded cfg env times st now = st) ∧
    (st.resetInProgress = false → isWithinResetWindow cfg now = true →
      (∀ d, st.lastResetDate = some d → d.day ≠ now.day) →
      checkAndResetIfNeeded cfg env times st now =
        finishCycle (runCycle cfg env times { st with resetInProgress := true })
          { st with resetInProgress := true } now) := by
  refine ⟨?_, ?_, ?_, ?_⟩
  · intro h
    simp [checkAndResetIfNeeded, checkAndResetWith, guardAndSet,
      shouldPerformReset, h]
  · intro h
    simp [checkAndResetIfNeeded, checkAndResetWith, guardAndSet,
      shouldPerformReset, h]
  · intro d hd hday
    simp [checkAndResetIfNeeded, checkAndResetWith, guardAndSet,
      shouldPerformReset, hd, hday]
  · intro h1 h2 h3
    have hs : shouldPerformReset cfg st now = true := by
      unfold shouldPerformReset
      cases hd : st.lastResetDate with
      | none => simp [h1, h2]
      | some d =>
        have := h3 d hd
        simp [h1, h2, this]
    simp [checkAndResetIfNeeded, checkAndResetWith, guardAndSet, hs]

/-- Witness for C1 at a concrete input: with a cycle already in progress the
call is a no-op. -/
theorem C1_guard_order_witness :
    checkAndResetIfNeeded defaultConfig fleetEnvFail fleetTimes
      { st0 with resetInProgress := true } t0 =
      { st0 with resetInProgress := true } :=
  (C1_guard_order defaultConfig fleetEnvFail fleetTimes
    { st0 with resetInProgress := true } t0).1 rfl

/-- C2: a second invocation arriving while a first invocation's cycle is in
flight (`resetInProgress = true`) is a no-op: it starts no cycle and returns
the state exactly unchanged, so two rapid invocations execute exactly one
fleet-wide cycle — the first's final state is that of a single executed cycle.
The guard check and the setting of the flag are one synchronous step
(`guardAndSet`), mirroring the source, where no `await` separates them. -/
theorem C2_second_invocation_noop (cfg : Config)
    (cycle cycle' : ServiceState → Except Unit (List (String × Machine) × Bool))
    (st : ServiceState) (now now' : Time)
    (h : shouldPerformReset cfg st now = true) :
    checkAndResetWith cfg cycle' { st with resetInProgress := true } now' =
      { st with resetInProgress := true } ∧
    shouldPerformReset cfg { st with resetInProgress := true } now' = false ∧
    checkAndResetWith cfg cycle st now =
      finishCycle (cycle { st with resetInProgress := true })
        { st with resetInProgress := true } now := by
  refine ⟨?_, ?_, ?_⟩
  · simp [checkAndResetWith, guardAndSet, shouldPerformReset]
  · simp [shouldPerformReset]
  · simp [checkAndResetWith, guardAndSet, h]

/-- Witness for C2 at a concrete input. -/
theorem C2_second_invocation_noop_witness :
    checkAndResetWith defaultConfig
      (runCycle defaultConfig fleetEnvFail fleetTimes)
      { st0 with resetInProgress := true } t1 =
      { st0 with resetInProgress := true } :=
  (C2_second_invocation_noop defaultConfig
    (runCycle defaultConfig fleetEnvFail fleetTimes)
    (runCycle defaultConfig fleetEnvFail fleetTimes)
    st0 t0 t1 (by decide)).1

/-- C4: every invocation that begins a cycle (the guards pass) clears
`resetInProgress` back to `false` before returning, for every possible cycle
outcome, including an internal fault (`.error`, absorbed by the
`catch`/`finally` structure). -/
theorem C4_guard_always_cleared (cfg : Config)
    (cycle : ServiceState → Except Unit (List (String × Machine) × Bool))
    (st : ServiceState) (now : Time)
    (h : shouldPerformReset cfg st now = true) :
    (checkAndResetWith cfg cycle st now).resetInProgress = false := by
  simp only [checkAndResetWith, guardAndSet, h, if_true]
  cases hc : cycle { st with resetInProgress := true } with
  | ok v => cases v with
    | mk ms allOk =>
      by_cases ha : allOk = true <;> simp [finishCycle, ha]
  | error e => simp [finishCycle]

/-- Witness for C4 at a concrete input whose cycle faults internally. -/
theorem C4_guard_always_cleared_witness :
    (checkAndResetWith defaultConfig (fun _ => .error ()) st0 t0).resetInProgress
      = false :=
  C4_guard_always_cleared defaultConfig (fun _ => .error ()) st0 t0 (by decide)

/-- C3: when a cycle runs, `lastResetDate` becomes the cycle's clock reading
exactly when every device's outcome was success; on any failure it is left
unchanged, so a later in-window tick on the same day passes the guards again
(re-running the full fleet), while after an all-success cycle a later
in-window tick on the same date starts no further cycle. -/
theorem C3_lastResetDate_iff_all_success (cfg : Config)
    (env : String → Nat → AttemptEnv) (times : String → Nat → Nat)
    (st : ServiceState) (now now2 : Time)
    (h1 : st.resetInProgress = false)
    (h2 : isWithinResetWindow cfg now = true)
    (h3 : ∀ d, st.lastResetDate = some d → d.day ≠ now.day)
    (h4 : isWithinResetWindow cfg now2 = true)
    (h5 : now2.day = now.day) :
    ((checkAndResetIfNeeded cfg env times st now).lastResetDate = some now ↔
      (fleetReset cfg env times st.machines).2 = true) ∧
    ((fleetReset cfg env times st.machines).2 = false →
      (checkAndResetIfNeeded cfg env times st now).lastResetDate =
        st.lastResetDate) ∧
    shouldPerformReset cfg (checkAndResetIfNeeded cfg env times st now) now2 =
      !(fleetReset cfg env times st.machines).2 := by
  have hs : shouldPerformReset cfg st now = true := by
    unfold shouldPerformReset
    cases hd : st.lastResetDate with
    | none => simp [h1, h2]
    | some d =>
      have := h3 d hd
      simp [h1, h2, this]
  have hrun : checkAndResetIfNeeded cfg env times st now =
      finishCycle (.ok (fleetReset cfg env times st.machines))
        { st with resetInProgress := true } now := by
    simp [checkAndResetIfNeeded, checkAndResetWith, guardAndSet, hs, runCycle]
  rw [hrun]
  cases hfr : fleetReset cfg env times st.machines with
  | mk ms allOk =>
    by_cases ha : allOk = true
    · subst ha
      refine ⟨by simp [finishCycle], by simp, ?_⟩
      simp [finishCycle, shouldPerformReset, h5]
    · have ha' : allOk = false := by simpa using ha
      subst ha'
      refine ⟨?_, by simp [finishCycle], ?_⟩
      · simp only [finishCycle, Bool.false_eq_true, if_false]
        constructor
        · intro hEq
          exact absurd rfl (h3 now (by simpa using hEq))
        · intro hfalse
          exact absurd hfalse (by simp)
      · simp only [finishCycle, Bool.false_eq_true, if_false, Bool.not_false]
        unfold shouldPerformReset
        cases hd : st.lastResetDate with
        | none => simp [h4]
        | some d =>
          have hne : d.day ≠ now.day := h3 d hd
          simp [h4, h5, hne]

/-- Witness for C3 at a concrete input: an all-failing fleet leaves the guard
open, so the next in-window tick on the same day runs again. -/
theorem C3_lastResetDate_iff_all_success_witness :
    shouldPerformReset defaultConfig
      (checkAndResetIfNeeded defaultConfig fleetEnvFail fleetTimes st0 t0) t1 =
      !(fleetReset defaultConfig fleetEnvFail fleetTimes st0.machines).2 :=
  (C3_lastResetDate_iff_all_success defaultConfig fleetEnvFail fleetTimes st0
    t0 t1 rfl (by decide) (by simp [st0]) (by decide) rfl).2.2

/-- C5: for a device whose every attempt fails (a failing reconnect, read,
write, or verification), the retry chain makes exactly `maxRetries` attempts
when started with `resetRetryCount = 0`, inserts the constant
`reconnectDelay` pause between consecutive attempts, and then resolves with
failure, restoring `resetRetryCount = 0` and setting `resetStatus = false`;
no further attempt follows. -/
theorem C5_retry_exhaustion (cfg : Config) (env : Nat → AttemptEnv)
    (times : Nat → Nat) (m : Machine)
    (hfail : ∀ j m2 t, ∃ e, (attemptOnce (env j) m2 t).result = .error e)
    (hc : m.resetRetryCount = 0) (hmax : 1 ≤ cfg.maxRetries) :
    (resetCounter cfg env times m).ok = false ∧
    (resetCounter cfg env times m).attempts = cfg.maxRetries ∧
    (resetCounter cfg env times m).delays =
      List.replicate (cfg.maxRetries - 1) cfg.reconnectDelay ∧
    (resetCounter cfg env times m).machine.resetRetryCount = 0 ∧
    (resetCounter cfg env times m).machine.resetStatus = false := by
  have h := resetCounterFrom_allFail cfg env times hfail cfg.maxRetries m 0
    hmax (by omega)
  exact ⟨h.1, h.2.1, h.2.2.1, h.2.2.2.1, h.2.2.2.2.1⟩

/-- Witness for C5 at the shipped configuration (`maxRetries = 5`,
`reconnectDelay = 5000`) and an always-failing read. -/
theorem C5_retry_exhaustion_witness :
    (resetCounter defaultConfig envAllFail timesLin machine0).ok = false ∧
    (resetCounter defaultConfig envAllFail timesLin machine0).attempts =
      defaultConfig.maxRetries ∧
    (resetCounter defaultConfig envAllFail timesLin machine0).delays =
      List.replicate (defaultConfig.maxRetries - 1)
        defaultConfig.reconnectDelay ∧
    (resetCounter defaultConfig envAllFail timesLin
      machine0).machine.resetRetryCount = 0 ∧
    (resetCounter defaultConfig envAllFail timesLin
      machine0).machine.resetStatus = false :=
  C5_retry_exhaustion defaultConfig envAllFail timesLin machine0
    envAllFail_attempt_fails rfl (by decide)

/-- C6: for a machine code present in the registry, the service-level
`resetCounter` never raises — it resolves to a boolean-carrying result after
the retry policy — while an unknown machine code raises immediately. -/
theorem C6_raise_only_unknown_code (cfg : Config)
    (machines : List (String × Machine)) (code : String)
    (env : Nat → AttemptEnv) (times : Nat → Nat) :
    ((machines.find? (fun p => p.1 == code)).isSome = true →
      ∃ r, serviceResetCounter cfg machines code env times = .ok r) ∧
    (machines.find? (fun p => p.1 == code) = none →
      serviceResetCounter cfg machines code env times =
        .error ("Machine " ++ code ++ " not found")) := by
  constructor
  · intro h
    unfold serviceResetCounter
    cases hf : machines.find? (fun p => p.1 == code) with
    | none => rw [hf] at h; simp at h
    | some p => exact ⟨_, rfl⟩
  · intro h
    unfold serviceResetCounter
    rw [h]

/-- Witness for C6: the registered code 45051 resolves without raising. -/
theorem C6_raise_only_unknown_code_witness :
    ∃ r, serviceResetCounter defaultConfig st0.machines "45051" envAllFail
      timesLin = .ok r :=
  (C6_raise_only_unknown_code defaultConfig st0.machines "45051" envAllFail
    timesLin).1 (by decide)

/-- Counterexample to C9: after a chain of attempts that all failed
(every read throws), at least one attempt has completed, yet
`lastResetAttempt` still holds its initial value `none`, not the timestamp of
the most recent attempt. -/
theorem C9_counterexample :
    1 ≤ (resetCounter defaultConfig envAllFail timesLin machine0).attempts ∧
    (resetCounter defaultConfig envAllFail timesLin
      machine0).machine.lastResetAttempt = none := by
  have h := resetCounterFrom_allFail defaultConfig envAllFail timesLin
    envAllFail_attempt_fails defaultConfig.maxRetries machine0 0 (by decide)
    (by decide)
  refine ⟨?_, ?_⟩
  · rw [resetCounter, h.2.1]; decide
  · rw [resetCounter, h.2.2.2.2.2]; rfl

/-- C9 amended: `lastResetAttempt` is updated only by a successful attempt —
after a success it holds that attempt's timestamp, while a failed attempt
(and hence a fully failed retry chain) leaves it unchanged. -/
theorem C9_lastAttempt_only_on_success (cfg : Config) (env : Nat → AttemptEnv)
    (times : Nat → Nat) (envA : AttemptEnv) (m m2 : Machine) (t : Nat) :
    ((attemptOnce envA m2 t).result = .ok () →
      (attemptOnce envA m2 t).machine.lastResetAttempt = some t) ∧
    ((∃ e, (attemptOnce envA m2 t).result = .error e) →
      (attemptOnce envA m2 t).machine.lastResetAttempt =
        m2.lastResetAttempt) ∧
    ((resetCounter cfg env times m).ok = false →
      (resetCounter cfg env times m).machine.lastResetAttempt =
        m.lastResetAttempt) := by
  refine ⟨?_, ?_, ?_⟩
  · intro h
    rcases attemptOnce_machine envA m2 t with ⟨_, hla, _⟩ | ⟨⟨e, he⟩, _⟩
    · exact hla
    · rw [h] at he; exact absurd he (by simp)
  · rintro ⟨e, he⟩
    rcases attemptOnce_machine envA m2 t with ⟨hok, _⟩ | ⟨_, hla, _⟩
    · rw [hok] at he; exact absurd he (by simp)
    · exact hla
  · intro h
    exact resetCounterFrom_fail_lastAttempt cfg env times
      (cfg.maxRetries - m.resetRetryCount) m 0 rfl h

/-- Witness for the amended C9: a successful attempt stamps its timestamp. -/
theorem C9_lastAttempt_only_on_success_witness :
    (attemptOnce (envAllOk 0) machine0 100).machine.lastResetAttempt =
      some 100 :=
  (C9_lastAttempt_only_on_success defaultConfig envAllFail timesLin
    (envAllOk 0) machine0 machine0 100).1 rfl

/-- C7: a single reset attempt (with the connect step passing) succeeds
exactly when the initial read returns a present block of at least 3
registers, the zero-write to the counter register is accepted, and the
verification re-read shows 0 at offset 2; the counter value carried at the
read block's offset never affects the outcome or the resulting state, and a
success records the attempt timestamp, zeroes the retry count and sets the
success flag. -/
theorem C7_attempt_success_iff (env : AttemptEnv) (m : Machine) (now : Nat)
    (hconn : (m.isConnected || env.connectOk) = true) :
    ((attemptOnce env m now).result = .ok () ↔
      (∃ d, env.readResult = some d ∧ 3 ≤ d.length) ∧ env.writeOk = true ∧
        (∃ vd, env.verifyResult = some vd ∧ vd.get? 2 = some 0)) ∧
    ((attemptOnce env m now).result = .ok () →
      (attemptOnce env m now).written = some (m.counterAddress, 0) ∧
      (attemptOnce env m now).machine.lastResetAttempt = some now ∧
      (attemptOnce env m now).machine.resetRetryCount = 0 ∧
      (attemptOnce env m now).machine.resetStatus = true) ∧
    (∀ d d2, env.readResult = some d → d2.length = d.length →
      (attemptOnce { env with readResult := some d2 } m now).result =
        (attemptOnce env m now).result ∧
      (attemptOnce { env with readResult := some d2 } m now).machine =
        (attemptOnce env m now).machine) := by
  have hc : (!m.isConnected && !env.connectOk) = false := by
    cases hm : m.isConnected <;> simp_all
  refine ⟨?_, ?_, ?_⟩
  · unfold attemptOnce
    simp only [hc, Bool.false_eq_true, if_false]
    cases hr : env.readResult with
    | none => simp
    | some d =>
      by_cases hlen : d.length < 3
      · simp [hlen]
      · simp only [hlen, if_false]
        cases hw : env.writeOk with
        | false => simp
        | true =>
          simp only [Bool.not_true, Bool.false_eq_true, if_false]
          cases hv : env.verifyResult with
          | none => simp
          | some vd =>
            by_cases hz : vd[2]? = some 0
            · simp [hz]
              omega
            · simp [hz]
  · intro h
    rcases attemptOnce_machine env m now with ⟨_, hla, hrc, hst⟩ | ⟨⟨e, he⟩, _⟩
    · refine ⟨?_, hla, hrc, hst⟩
      revert h
      unfold attemptOnce
      simp only [hc, Bool.false_eq_true, if_false]
      cases hr : env.readResult with
      | none => simp
      | some d =>
        by_cases hlen : d.length < 3
        · simp [hlen]
        · simp only [hlen, if_false]
          cases hw : env.writeOk with
          | false => simp
          | true =>
            simp only [Bool.not_true, Bool.false_eq_true, if_false]
            cases hv : env.verifyResult with
            | none => simp
            | some vd =>
              by_cases hz : vd[2]? = some 0
              · simp [hz]
              · simp [hz]
    · rw [h] at he; exact absurd he (by simp)
  · intro d d2 hd hlen2
    unfold attemptOnce
    dsimp only
    rw [hd]
    by_cases hlen : d.length < 3
    · have hlen2lt : d2.length < 3 := by omega
      simp [hlen, hlen2lt]
    · have hlen2lt : ¬ d2.length < 3 := by omega
      simp [hlen, hlen2lt]

/-- Witness for C7: a fully successful attempt writes (47, 0) and records the
success state. -/
theorem C7_attempt_success_iff_witness :
    (attemptOnce (envAllOk 0) machine0 100).written =
      some (machine0.counterAddress, 0) ∧
    (attemptOnce (envAllOk 0) machine0 100).machine.lastResetAttempt =
      some 100 ∧
    (attemptOnce (envAllOk 0) machine0 100).machine.resetRetryCount = 0 ∧
    (attemptOnce (envAllOk 0) machine0 100).machine.resetStatus = true :=
  (C7_attempt_success_iff (envAllOk 0) machine0 100 (by decide)).2.1 rfl

/-- Counterexample to C8: with the shipped configuration (window
16:24-16:39), the pre-check cron schedule fires at 16:50 — past the end of
the primary window — while the claimed fire set ends with the window. -/
theorem C8_counterexample :
    preCheckFires defaultConfig 16 50 = true ∧
    claimedPreCheckFires defaultConfig 16 50 = false := by decide

/-- C8 amended: for configurations whose pre-check cron string is well-formed
and does not wrap (5 ≤ resetMinute ≤ 40), the pre-check timer fires at every
minute of the reset hour — this contains the span from 5 minutes before the
primary window through its end, but also continues past the window's end to
the end of the hour. -/
theorem C8_preCheck_fires_whole_hour (cfg : Config) (h5 : 5 ≤ cfg.resetMinute)
    (h40 : cfg.resetMinute ≤ 40) (h m : Nat) (hm : m ≤ 59) :
    preCheckFires cfg h m = (h == cfg.resetHour) := by
  have hz : (cfg.resetMinute == 0) = false := by
    simp; omega
  unfold preCheckFires preCheckHour preCheckMinute
  rw [hz]
  simp only [Bool.false_eq_true, if_false, Bool.or_self]
  by_cases hh : h = cfg.resetHour
  · subst hh
    simp only [beq_self_eq_true, Bool.true_and]
    by_cases hge : cfg.resetMinute - 5 ≤ m
    · simp [hge, hm]
    · have : m ≤ cfg.resetMinute + 19 := by omega
      simp [this]
  · have hne : (h == cfg.resetHour) = false := by
      simp [hh]
    simp [hne]

/-- Witness for the amended C8: at the shipped configuration the pre-check
timer fires at 16:50. -/
theorem C8_preCheck_fires_whole_hour_witness :
    preCheckFires defaultConfig 16 50 = (16 == defaultConfig.resetHour) :=
  C8_preCheck_fires_whole_hour defaultConfig (by decide) (by decide) 16 50
    (by decide)

/-- C10: fleet-wide connect always resolves and `start` always reaches
`startScheduler` (second component `true` for every assignment of per-device
connect outcomes, including all-failing); each machine's resulting state
depends only on its own outcome — a machine whose connect succeeds becomes
connected and a machine whose connect fails is left exactly as it was, no
matter what happens to the other machines. -/
theorem C10_connect_never_rejects (outcomes : String → Except Unit Unit)
    (st : ServiceState) :
    (managerStart outcomes st).2 = true ∧
    (∀ i : Nat, ((managerStart outcomes st).1.machines.get? i) =
      (st.machines.get? i).map
        (fun p => (p.1, connectMachine (outcomes p.1) p.2))) ∧
    (∀ m2 : Machine, (connectMachine (.ok ()) m2).isConnected = true) ∧
    (∀ m2 : Machine, connectMachine (.error ()) m2 = m2) := by
  refine ⟨rfl, ?_, ?_, ?_⟩
  · intro i
    simp [managerStart, connectAll, List.get?_eq_getElem?]
  · intro m2
    unfold connectMachine
    by_cases hc : m2.isConnected = true
    · simp [hc]
    · simp [hc]
  · intro m2
    unfold connectMachine
    by_cases hc : m2.isConnected = true
    · simp [hc]
    · simp [hc]
